import Mathlib

/-!
Verification development for the dsp_systems_modelling repository.

The Python sources are shallowly embedded here:
  * `src/ai_utils.py` — enumerated-response parsing and the three field
    extractors (meta, detail, user items); the upstream chat call is
    modelled as an `Option String` argument (`none` = the call raised).
  * `src/extract_data.py` — per-study three-pass pipeline and row building.
  * `src/dsp_systems_modelling/ontology_mapping.py` — ontology loading and
    the embedding-based nearest-term matcher; the embedding call is an
    oracle `String → Option (List ℚ)` (`none` = the call raised), and the
    square root inside the vector norm is an explicit function parameter
    (exact real square root is not rational-computable; no theorem below
    depends on the magnitude of a nonzero similarity).

Character-level operations model CPython semantics on the ASCII fragment
(whitespace, `\w`, `str.upper`); every concrete input used below is ASCII.
-/

/-! ### Python string primitives -/

/-- Whitespace characters removed by Python `str.strip()` (ASCII fragment). -/
def pyIsSpace (c : Char) : Bool :=
  c = ' ' || c = '\t' || c = '\n' || c = '\r' || c = '\x0b' || c = '\x0c'

/-- Python `str.strip()`: drop leading and trailing whitespace. -/
def pyStrip (l : List Char) : List Char :=
  ((l.dropWhile pyIsSpace).reverse.dropWhile pyIsSpace).reverse

/-- A character list with no leading and no trailing whitespace. -/
def strippedB (l : List Char) : Bool :=
  (match l.head? with
   | some c => !pyIsSpace c
   | none => true) &&
  (match l.getLast? with
   | some c => !pyIsSpace c
   | none => true)

/-- The sentinel `"NA"` as a character list. -/
def naChars : List Char := ['N', 'A']

/-- Python `str.strip()` at `String` type. -/
def pyStripS (s : String) : String := String.mk (pyStrip s.data)

/-- Python `str.upper()` (ASCII fragment). -/
def pyUpper (s : String) : String := String.mk (s.data.map Char.toUpper)

/-! ### Model of the regular expressions used by the parsers

All three parsers in `ai_utils.py` search, for item `i` of `n`, the pattern
`(?s)(?<=\b{i}:)(.*?)(?=\b{i+1}:|$)` (for `i < n`) or `(?s)(?<=\b{i}:)(.*)$`
(for the last item).  `re.search` semantics: the match starts at the
leftmost position where the lookbehind holds; the lazy capture extends to
the smallest end position where the lookahead holds; the greedy capture of
the last pattern extends to the end of the string.  `$` (no MULTILINE)
holds at the end of the string and just before a trailing newline. -/

/-- Python regex `\w` (ASCII fragment): letters, digits, underscore. -/
def isWordChar (c : Char) : Bool := c.isAlphanum || c = '_'

/-- The literal label text `"{i}:"`. -/
def labelChars (i : Nat) : List Char := Nat.toDigits 10 i ++ [':']

/-- `lab` occurs in `s` starting at position `p`. -/
def occursAt (s lab : List Char) (p : Nat) : Bool :=
  decide ((s.drop p).take lab.length = lab)

/-- The character at position `p`, when present, is a word character. -/
def wordCharAt (s : List Char) (p : Nat) : Bool :=
  match s.get? p with
  | some c => isWordChar c
  | none => false

/-- Position `q` in `s` matches `\b{i}:` — the label occurs there and the
word boundary holds (the label starts with a digit, so the boundary holds
iff `q` is the start of the string or the previous character is not a word
character). -/
def labelAt (s : List Char) (i q : Nat) : Bool :=
  occursAt s (labelChars i) q && (q == 0 || !wordCharAt s (q - 1))

/-- The lookbehind `(?<=\b{i}:)` succeeds at position `p`. -/
def lookbehindAt (s : List Char) (i p : Nat) : Bool :=
  decide ((labelChars i).length ≤ p) && labelAt s i (p - (labelChars i).length)

/-- Python `$` (no MULTILINE) holds at position `q`. -/
def dollarAt (s : List Char) (q : Nat) : Bool :=
  q == s.length || (q + 1 == s.length && s.get? q == some '\n')

/-- Leftmost position where the lookbehind `(?<=\b{i}:)` succeeds. -/
def findStart (s : List Char) (i : Nat) : Option Nat :=
  (List.range (s.length + 1)).find? (fun p => lookbehindAt s i p)

/-- Smallest end position `q ≥ start` where the lookahead
`(?=\b{i+1}:|$)` succeeds (the lazy-capture end for item `i`). -/
def findEnd (s : List Char) (i start : Nat) : Option Nat :=
  (List.range (s.length + 1)).find?
    (fun q => decide (start ≤ q) && (labelAt s (i + 1) q || dollarAt s q))

/-- Captured group of `re.search(r"(?s)(?<=\b{i}:)(.*?)(?=\b{i+1}:|$)", s)`. -/
def searchMid (s : List Char) (i : Nat) : Option (List Char) :=
  match findStart s i with
  | none => none
  | some p =>
    match findEnd s i p with
    | none => none
    | some q => some ((s.drop p).take (q - p))

/-- Captured group of `re.search(r"(?s)(?<=\b{i}:)(.*)$", s)`. -/
def searchLast (s : List Char) (i : Nat) : Option (List Char) :=
  (findStart s i).map (fun p => s.drop p)

/-- Some position of `s` matches `\b{i}:`. -/
def hasLabel (s : List Char) (i : Nat) : Bool :=
  (List.range (s.length + 1)).any (fun q => labelAt s i q)

/-! ### The shared enumerated-answer parsing loop

`parse_meta_extraction`, `parse_detail_extraction` and
`parse_user_items_response` all run the same loop: for `i` in `1..n`,
search the mid pattern (`i < n`) or the last pattern (`i = n`), strip the
captured group, and substitute `"NA"` for a missing match or an empty
stripped capture. -/

/-- Value produced for item `i` of `n` by the parsing loop body. -/
def parseItemVal (content : List Char) (i n : Nat) : List Char :=
  match (if i < n then searchMid content i else searchLast content i) with
  | some g =>
    let v := pyStrip g
    if v = [] then naChars else v
  | none => naChars

/-- The `results` list built by the parsing loop: the value for item `j+1`
sits at index `j`. -/
def parseItems (content : List Char) (n : Nat) : List (List Char) :=
  (List.range n).map (fun j => parseItemVal content (j + 1) n)

/-! ### `ai_utils.py` parsers and extractors

Dicts are modelled as association lists in insertion order; the upstream
chat call is an `Option String` argument (`some content` = the response
text, `none` = the call raised and the `except` branch runs). -/

/-- `parse_meta_extraction` (`ai_utils.py`): parse 8 enumerated lines and
name them. -/
def parse_meta_extraction (content : String) : List (String × String) :=
  let d := (parseItems content.data 8).map String.mk
  [("study_title", d.getD 0 "NA"),
   ("population_outcome_measured_in", d.getD 1 "NA"),
   ("population_intervention_affected_or_predictor", d.getD 2 "NA"),
   ("secondary_characteristics", d.getD 3 "NA"),
   ("country", d.getD 4 "NA"),
   ("study_type_letter", d.getD 5 "NA"),
   ("num_main_results", d.getD 6 "NA"),
   ("main_results_list", d.getD 7 "NA")]

/-- `parse_detail_extraction` (`ai_utils.py`): parse 7 enumerated lines. -/
def parse_detail_extraction (content : String) : List (String × String) :=
  let d := (parseItems content.data 7).map String.mk
  [("effect_size_type", d.getD 0 "NA"),
   ("effect_size", d.getD 1 "NA"),
   ("effect_size_uncertainty", d.getD 2 "NA"),
   ("p_value", d.getD 3 "NA"),
   ("total_sample_size", d.getD 4 "NA"),
   ("intervention_or_predictor_variable", d.getD 5 "NA"),
   ("outcome_variable", d.getD 6 "NA")]

/-- `parse_user_items_response` (`ai_utils.py`): parse `num_items`
enumerated answers into `results`, then build
`{f"extra_{i}": results[i - 1] for i in range(num_items)}` — note the
`i - 1` under a 0-based `i`, so `extra_0` receives `results[-1]`, the
last element (Python negative indexing). -/
def parse_user_items_response (content : String) (num_items : Nat) :
    List (String × String) :=
  let results := parseItems content.data num_items
  (List.range num_items).map (fun i =>
    ("extra_" ++ toString i,
     String.mk (if i = 0 then results.getD (num_items - 1) naChars
                else results.getD (i - 1) naChars)))

/-- `extract_meta_info` (`ai_utils.py`): fallback dict on call failure,
otherwise parse the stripped response. -/
def extract_meta_info (resp : Option String) : List (String × String) :=
  match resp with
  | none =>
    [("study_title", "NA"),
     ("population_outcome_measured_in", "NA"),
     ("population_intervention_affected_or_predictor", "NA"),
     ("secondary_characteristics", "NA"),
     ("country", "NA"),
     ("study_type_letter", "NA"),
     ("num_main_results", "0"),
     ("main_results_list", "NA")]
  | some content => parse_meta_extraction (pyStripS content)

/-- `extract_result_details` (`ai_utils.py`): fallback dict on call
failure, otherwise parse the stripped response. -/
def extract_result_details (resp : Option String) : List (String × String) :=
  match resp with
  | none =>
    [("effect_size_type", "NA"),
     ("effect_size", "NA"),
     ("effect_size_uncertainty", "NA"),
     ("p_value", "NA"),
     ("total_sample_size", "NA"),
     ("intervention_or_predictor_variable", "NA"),
     ("outcome_variable", "NA")]
  | some content => parse_detail_extraction (pyStripS content)

/-- `extract_user_items` (`ai_utils.py`): empty dict when no user items;
on call failure the fallback `{f"extra_{i}": "NA" for i in
range(1, len(user_items) + 1)}` (keys `extra_1 .. extra_k`); otherwise
parse the stripped response. -/
def extract_user_items (resp : Option String) (user_items : List String) :
    List (String × String) :=
  if user_items.isEmpty then []
  else
    match resp with
    | none =>
      (List.range user_items.length).map
        (fun i => ("extra_" ++ toString (i + 1), "NA"))
    | some content => parse_user_items_response (pyStripS content) user_items.length

/-! ### `extract_data.py` per-study pipeline -/

/-- Python `dict.get(k, dflt)` on an association list with distinct keys. -/
def pyGet (d : List (String × String)) (k dflt : String) : String :=
  match d.find? (fun kv => kv.1 == k) with
  | some kv => kv.2
  | none => dflt

/-- Python `str.split(";")` (single-character separator). -/
def splitSemi : List Char → List (List Char)
  | [] => [[]]
  | c :: t =>
    match splitSemi t with
    | [] => [[c]]
    | h :: r => if c = ';' then [] :: h :: r else (c :: h) :: r

/-- Python `int(s)` on the plain decimal fragment (optional sign, digits,
surrounding whitespace); `none` models a raised `ValueError`.  Its value
is irrelevant to every theorem below because result-count reconciliation
always overwrites it. -/
def pyParseInt (l : List Char) : Option Int :=
  match pyStrip l with
  | [] => none
  | c :: rest =>
    let signed : Int × List Char :=
      if c = '-' then (-1, rest) else if c = '+' then (1, rest) else (1, c :: rest)
    if signed.2 ≠ [] ∧ signed.2.all Char.isDigit then
      some (signed.1 * (signed.2.foldl (fun acc d => acc * 10 + (d.toNat - '0'.toNat)) 0 : Nat))
    else none

/-- `try: int(s) except: 0` (the bare `except` in `run_three_pass_extraction`). -/
def pyIntOr0 (s : String) : Int := (pyParseInt s.data).getD 0

/-- `main_results_list` derivation in `run_three_pass_extraction`: guard
against a falsy or `"NA"` string, split on `";"`, strip each part, drop
the empty parts. -/
def mainResultsListOf (meta_data : List (String × String)) : List String :=
  let mrs := pyGet meta_data "main_results_list" "NA"
  if mrs ≠ "" ∧ mrs ≠ "NA" then
    ((((splitSemi mrs.data).map pyStrip).filter (fun p => p ≠ [])).map String.mk)
  else []

/-- Result-count reconciliation in `run_three_pass_extraction`:
`num_results = int(meta_data["num_main_results"])` (0 on failure), then the
semicolon-derived length wins on mismatch. -/
def reconciledCount (meta_data : List (String × String)) : Int :=
  let num0 := pyIntOr0 (pyGet meta_data "num_main_results" "NA")
  let l := mainResultsListOf meta_data
  if num0 ≠ (l.length : Int) then (l.length : Int) else num0

/-- The all-`"NA"` pass-2 dict materialized for a zero-result study
(`run_three_pass_extraction`, zero-results branch). -/
def naDetailDict : List (String × String) :=
  [("effect_size_type", "NA"),
   ("effect_size", "NA"),
   ("effect_size_uncertainty", "NA"),
   ("p_value", "NA"),
   ("total_sample_size", "NA"),
   ("intervention_or_predictor_variable", "NA"),
   ("outcome_variable", "NA")]

/-- `build_row` (`extract_data.py`): merge meta, pass-2 and user data into
one flat row (user data appended, as the trailing `row[k] = v` loop does
for its fresh `extra_*` keys). -/
def build_row (pdf_file : String) (meta_data : List (String × String))
    (result_index : Int) (result_text : String)
    (detail_data user_data : List (String × String)) : List (String × String) :=
  [("filename", pdf_file),
   ("study_title", pyGet meta_data "study_title" "NA"),
   ("population_outcome_measured_in", pyGet meta_data "population_outcome_measured_in" "NA"),
   ("population_intervention_affected_or_predictor",
     pyGet meta_data "population_intervention_affected_or_predictor" "NA"),
   ("secondary_characteristics", pyGet meta_data "secondary_characteristics" "NA"),
   ("country", pyGet meta_data "country" "NA"),
   ("study_type_letter", pyGet meta_data "study_type_letter" "NA"),
   ("num_main_results", pyGet meta_data "num_main_results" "0"),
   ("main_result_index", toString result_index),
   ("main_result_text", result_text),
   ("effect_size_type", pyGet detail_data "effect_size_type" "NA"),
   ("effect_size", pyGet detail_data "effect_size" "NA"),
   ("effect_size_uncertainty", pyGet detail_data "effect_size_uncertainty" "NA"),
   ("p_value", pyGet detail_data "p_value" "NA"),
   ("total_sample_size", pyGet detail_data "total_sample_size" "NA"),
   ("intervention_or_predictor_variable",
     pyGet detail_data "intervention_or_predictor_variable" "NA"),
   ("outcome_variable", pyGet detail_data "outcome_variable" "NA")] ++ user_data

/-- The study-level user_data value (`{}` unless `user_items` is
non-empty, in which case `extract_user_items` is called once). -/
def userDataOf (user_items : List String) (userResp : Option String) :
    List (String × String) :=
  if user_items.isEmpty then [] else extract_user_items userResp user_items

/-- The body of the per-PDF loop of `run_three_pass_extraction` for one
study: pass 1 (meta), pass 3 (user items), reconciliation, then either the
single synthetic zero-result row or one pass-2 call and row per main
result.  `detailResp i` is the response of the `i`-th pass-2 call
(1-based, in call order); the oracle models the sequence of upstream
calls the loop issues. -/
def processStudy (filename : String) (user_items : List String)
    (metaResp userResp : Option String) (detailResp : Nat → Option String) :
    List (List (String × String)) :=
  let meta_data := extract_meta_info metaResp
  let user_data := userDataOf user_items userResp
  let mrl := mainResultsListOf meta_data
  let num_results := reconciledCount meta_data
  if num_results = 0 then
    [build_row filename meta_data 0 "NA" naDetailDict user_data]
  else
    mrl.enum.map (fun je =>
      build_row filename meta_data ((je.1 : Int) + 1) je.2
        (extract_result_details (detailResp (je.1 + 1))) user_data)

/-- The fixed CSV header of `run_three_pass_extraction`, extended with
`extra_0 .. extra_{k-1}` when user items are supplied. -/
def csvFieldnames (user_items : List String) : List String :=
  ["filename", "study_title", "population_outcome_measured_in",
   "population_intervention_affected_or_predictor", "secondary_characteristics",
   "country", "study_type_letter", "num_main_results", "main_result_index",
   "main_result_text", "effect_size_type", "effect_size",
   "effect_size_uncertainty", "p_value", "total_sample_size",
   "intervention_or_predictor_variable", "outcome_variable"] ++
  (if user_items.isEmpty then []
   else (List.range user_items.length).map (fun i => "extra_" ++ toString i))

/-- `csv.DictWriter.writerow` accepts a row iff every key of the row is
among the fieldnames (otherwise it raises `ValueError`). -/
def writerowOk (fns : List String) (row : List (String × String)) : Bool :=
  row.all (fun kv => fns.contains kv.1)

/-! ### `ontology_mapping.py`

The embedding call is an oracle `emb : String → Option (List ℚ)`
(`none` = the API call raised, handled by `compute_embedding`'s `except`
branch).  `sq` stands for the square root used by `np.linalg.norm`; it is
a parameter because exact real square root is not rational-computable, and
no theorem below depends on the magnitude of a nonzero similarity. -/

/-- A parsed JSON value (`json.load` result). -/
inductive Jsn where
  | str (s : String)
  | num (q : ℚ)
  | bool (b : Bool)
  | null
  | arr (items : List Jsn)
  | obj (fields : List (String × Jsn))

/-- Python `d[k]` / `"k" in d` on a JSON object. -/
def objGet (fields : List (String × Jsn)) (k : String) : Option Jsn :=
  (fields.find? (fun kv => kv.1 == k)).map (fun kv => kv.2)

/-- Is this JSON value a string? -/
def jsnIsStr : Jsn → Bool
  | .str _ => true
  | _ => false

/-- The string payloads of a list of JSON strings. -/
def jsnStrs (items : List Jsn) : List String :=
  items.filterMap (fun j => match j with | .str s => some s | _ => none)

/-- The comprehension `[item["term"] for item in data if "term" in item]`
restricted to arrays of objects with string-valued terms (Python raises a
`TypeError` on non-iterable elements and keeps non-string term values;
those inputs are outside the modelled fragment). -/
def jsnTermValues (items : List Jsn) : List String :=
  items.filterMap (fun j =>
    match j with
    | .obj o =>
      match objGet o "term" with
      | some (.str s) => some s
      | _ => none
    | _ => none)

/-- The JSON-shape logic of `load_ontology` on a successfully parsed
value: a non-empty array whose head is an object with a `"term"` field
yields the term values; otherwise an all-string array yields the strings;
every other shape falls through to `return []`. -/
def loadOntologyJsonShape (data : Jsn) : List String :=
  match data with
  | .arr items =>
    if items.length > 0 then
      match items.head? with
      | some (.obj o) =>
        if (objGet o "term").isSome then jsnTermValues items
        else if items.all jsnIsStr then jsnStrs items else []
      | _ => if items.all jsnIsStr then jsnStrs items else []
    else []
  | _ => []

/-- A parsed CSV frame: columns in order, each with its cell values
(missing cells are outside the modelled fragment, so the `dropna()` on the
first-column fallback is the identity here). -/
def CsvDf : Type := List (String × List String)

/-- The CSV branch of `load_ontology`: the `"term"` column if present,
else the first column. -/
def loadOntologyCsvShape (df : CsvDf) : List String :=
  match df.find? (fun col => col.1 == "term") with
  | some col => col.2
  | none =>
    match df.head? with
    | some col => col.2
    | none => []

/-- An ontology source file as `load_ontology` sees it: the extension
selects the branch, and `none` for the parsed content models
`pd.read_csv` / `open` / `json.load` raising. -/
inductive OntologySource where
  | csvFile (parsed : Option CsvDf)
  | jsonFile (parsed : Option Jsn)
  | otherExt

/-- `load_ontology` (`ontology_mapping.py`).  The function wraps no
`try`, so a raised read/parse error propagates to the caller — modelled
as `Except.error ()`.  An unsupported extension logs a warning and
returns `[]`. -/
def load_ontology : OntologySource → Except Unit (List String)
  | .csvFile none => .error ()
  | .csvFile (some df) => .ok (loadOntologyCsvShape df)
  | .jsonFile none => .error ()
  | .jsonFile (some data) => .ok (loadOntologyJsonShape data)
  | .otherExt => .ok []

/-- One row of the ontology embedding frame (`term`, `embedding`). -/
structure OntoRow where
  term : String
  embedding : List ℚ
deriving DecidableEq

/-- `compute_embedding` (`ontology_mapping.py`): the API result, or `[]`
when the call raised. -/
def compute_embedding (emb : String → Option (List ℚ)) (text : String) : List ℚ :=
  (emb text).getD []

/-- `create_ontology_embeddings` (`ontology_mapping.py`): one embedding
per term, in order (an empty term list yields an empty frame). -/
def create_ontology_embeddings (emb : String → Option (List ℚ))
    (terms : List String) : List OntoRow :=
  terms.map (fun t => ⟨t, compute_embedding emb t⟩)

/-- `np.dot` on equal-length vectors. -/
def dotList (a b : List ℚ) : ℚ :=
  (a.zip b).foldl (fun acc p => acc + p.1 * p.2) 0

/-- `cosine_similarity` (`ontology_mapping.py`): `0.0` for an empty
vector on either side or a zero norm on either side, else
`dot / (norm_a * norm_b)` with `norm_x = sq (x · x)`. -/
def cosine_similarity (sq : ℚ → ℚ) (vec_a vec_b : List ℚ) : ℚ :=
  if vec_a = [] ∨ vec_b = [] then 0
  else
    let dot := dotList vec_a vec_b
    let norm_a := sq (dotList vec_a vec_a)
    let norm_b := sq (dotList vec_b vec_b)
    if norm_a = 0 ∨ norm_b = 0 then 0 else dot / (norm_a * norm_b)

/-- `np.argmax`: index of the first occurrence of the maximum. -/
def argmaxIdx : List ℚ → Nat
  | [] => 0
  | a :: rest => if rest.all (fun b => b ≤ a) then 0 else argmaxIdx rest + 1

/-- `find_best_match_in_ontology` (`ontology_mapping.py`): `"NA"` on an
empty frame, else the term at the argmax of the cosine similarities
between the item embedding and each row's embedding. -/
def find_best_match_in_ontology (sq : ℚ → ℚ) (emb : String → Option (List ℚ))
    (item_text : String) (onto_df : List OntoRow) : String :=
  if onto_df.isEmpty then "NA"
  else
    let item_embedding := compute_embedding emb item_text
    let sims := onto_df.map (fun row => cosine_similarity sq item_embedding row.embedding)
    (onto_df.getD (argmaxIdx sims) ⟨"NA", []⟩).term

/-- The per-row body of the mapping loop in
`map_interventions_and_outcomes`: read the (hard-coded) columns `"4"` and
`"7"` with default `"NA"`, guard on truthiness and `.upper() != "NA"`,
and match each against its ontology frame. -/
def mapRowPair (sq : ℚ → ℚ) (emb : String → Option (List ℚ))
    (intervention_onto_df outcome_onto_df : List OntoRow)
    (row : List (String × String)) : String × String :=
  let extracted_interv_text := pyGet row "4" "NA"
  let extracted_outcome_text := pyGet row "7" "NA"
  let best_interv_term :=
    if extracted_interv_text ≠ "" ∧ pyUpper extracted_interv_text ≠ "NA" then
      find_best_match_in_ontology sq emb extracted_interv_text intervention_onto_df
    else "NA"
  let best_out_term :=
    if extracted_outcome_text ≠ "" ∧ pyUpper extracted_outcome_text ≠ "NA" then
      find_best_match_in_ontology sq emb extracted_outcome_text outcome_onto_df
    else "NA"
  (best_interv_term, best_out_term)

/-- `map_interventions_and_outcomes` (`ontology_mapping.py`) with file I/O
stripped: embed both ontologies once, then append the two mapped columns
to every row of the extraction table. -/
def map_interventions_and_outcomes (sq : ℚ → ℚ)
    (emb : String → Option (List ℚ))
    (intervention_terms outcome_terms : List String)
    (df_extracted : List (List (String × String))) :
    List (List (String × String)) :=
  let intervention_onto_df := create_ontology_embeddings emb intervention_terms
  let outcome_onto_df := create_ontology_embeddings emb outcome_terms
  df_extracted.map (fun row =>
    let p := mapRowPair sq emb intervention_onto_df outcome_onto_df row
    row ++ [("mapped_intervention", p.1), ("mapped_outcome", p.2)])

/-! ### Spec-side definitions

These two follow the spec's words, to be compared against the pipeline's
derivations. -/

/-- The spec's candidate list: split on `";"`, trim each part, drop the
empty parts. -/
def specSplitParts (s : String) : List String :=
  (((splitSemi s.data).map pyStrip).filter (fun p => p ≠ [])).map String.mk

/-- The raw string parsed for meta field 7 (`"0"` when the meta call
failed): the claims describe the `num_main_results` cell this way. -/
def metaField7Raw (metaResp : Option String) : String :=
  match metaResp with
  | none => "0"
  | some content => String.mk (parseItemVal (pyStrip content.data) 7 8)

/-! ### Helper lemmas -/

theorem dropWhile_head?_not (p : Char → Bool) (l : List Char) (c : Char)
    (h : (l.dropWhile p).head? = some c) : p c = false := by
  induction l with
  | nil => simp [List.dropWhile] at h
  | cons a t ih =>
    rw [List.dropWhile_cons] at h
    by_cases hpa : p a = true
    · rw [if_pos hpa] at h
      exact ih h
    · rw [if_neg hpa] at h
      simp only [List.head?_cons, Option.some.injEq] at h
      subst h
      simpa using hpa

theorem dropWhile_getLast? (p : Char → Bool) (l : List Char)
    (h : l.dropWhile p ≠ []) : (l.dropWhile p).getLast? = l.getLast? := by
  induction l with
  | nil => simp [List.dropWhile] at h
  | cons a t ih =>
    rw [List.dropWhile_cons] at h ⊢
    by_cases hpa : p a = true
    · rw [if_pos hpa] at h ⊢
      rw [ih h]
      cases t with
      | nil => simp [List.dropWhile] at h
      | cons b u => rw [List.getLast?_cons_cons]
    · rw [if_neg hpa]

/-- Every output of `pyStrip` has no leading and no trailing whitespace. -/
theorem pyStrip_strippedB (l : List Char) : strippedB (pyStrip l) = true := by
  unfold pyStrip strippedB
  rcases hB : (l.dropWhile pyIsSpace).reverse.dropWhile pyIsSpace with _ | ⟨c, t⟩
  · simp
  · have hBne : (l.dropWhile pyIsSpace).reverse.dropWhile pyIsSpace ≠ [] := by
      rw [hB]; exact List.cons_ne_nil c t
    have hhead : ((l.dropWhile pyIsSpace).reverse.dropWhile pyIsSpace).head? = some c := by
      rw [hB]; rfl
    -- trailing side of the reversed result = head of the dropWhile output
    have htrail : ((l.dropWhile pyIsSpace).reverse.dropWhile pyIsSpace).reverse.getLast?
        = some c := by
      rw [List.getLast?_reverse, hhead]
    -- leading side of the reversed result = last of the dropWhile output
    have hlead : ((l.dropWhile pyIsSpace).reverse.dropWhile pyIsSpace).reverse.head?
        = (l.dropWhile pyIsSpace).reverse.getLast? := by
      rw [List.head?_reverse, dropWhile_getLast? _ _ hBne]
    have hlast : (l.dropWhile pyIsSpace).reverse.getLast? = (l.dropWhile pyIsSpace).head? := by
      rw [List.getLast?_reverse]
    rw [← hB]
    rcases hh : (l.dropWhile pyIsSpace).head? with _ | d
    · -- dropWhile output empty, so its reverse is empty and so is the final list
      have : l.dropWhile pyIsSpace = [] := by
        cases hx : l.dropWhile pyIsSpace with
        | nil => rfl
        | cons x xs => rw [hx] at hh; simp at hh
      rw [this] at hBne
      simp [List.dropWhile] at hBne
    · have hd : pyIsSpace d = false := dropWhile_head?_not pyIsSpace l d hh
      have hc : pyIsSpace c = false :=
        dropWhile_head?_not pyIsSpace (l.dropWhile pyIsSpace).reverse c hhead
      rw [hlead, hlast, hh, htrail]
      simp [hd, hc]

/-- The parsing loop yields, for each item, either the sentinel or a
non-empty value with no surrounding whitespace. -/
theorem parseItemVal_na_or_stripped (content : List Char) (i n : Nat) :
    parseItemVal content i n = naChars ∨
      (parseItemVal content i n ≠ [] ∧ strippedB (parseItemVal content i n) = true) := by
  unfold parseItemVal
  rcases (if i < n then searchMid content i else searchLast content i) with _ | g
  · exact Or.inl rfl
  · by_cases hv : pyStrip g = []
    · left
      show (if pyStrip g = [] then naChars else pyStrip g) = naChars
      rw [if_pos hv]
    · right
      constructor
      · show (if pyStrip g = [] then naChars else pyStrip g) ≠ []
        rw [if_neg hv]; exact hv
      · show strippedB (if pyStrip g = [] then naChars else pyStrip g) = true
        rw [if_neg hv]; exact pyStrip_strippedB g

theorem parseItems_length (content : List Char) (n : Nat) :
    (parseItems content n).length = n := by
  unfold parseItems
  rw [List.length_map, List.length_range]

theorem findStart_eq_none (s : List Char) (i : Nat) (h : hasLabel s i = false) :
    findStart s i = none := by
  unfold findStart
  rw [List.find?_eq_none]
  intro p hp hlb
  unfold lookbehindAt at hlb
  rw [Bool.and_eq_true, decide_eq_true_eq] at hlb
  have hq : p - (labelChars i).length ∈ List.range (s.length + 1) := by
    rw [List.mem_range] at hp ⊢
    omega
  have : hasLabel s i = true := by
    unfold hasLabel
    rw [List.any_eq_true]
    exact ⟨p - (labelChars i).length, hq, hlb.2⟩
  rw [this] at h
  exact Bool.noConfusion h

/-- With no matching label anywhere in the text, every item parses to the
sentinel. -/
theorem parseItemVal_eq_na_of_no_label (content : List Char) (i n : Nat)
    (h : hasLabel content i = false) : parseItemVal content i n = naChars := by
  unfold parseItemVal searchMid searchLast
  rw [findStart_eq_none content i h]
  cases Nat.decLt i n with
  | isTrue hlt => rw [if_pos hlt]
  | isFalse hge => rw [if_neg hge]; rfl

/-- Reconciliation always lands on the semicolon-derived length. -/
theorem reconciledCount_eq_length (meta_data : List (String × String)) :
    reconciledCount meta_data = ((mainResultsListOf meta_data).length : Int) := by
  unfold reconciledCount
  show (if pyIntOr0 (pyGet meta_data "num_main_results" "NA")
          ≠ ((mainResultsListOf meta_data).length : Int)
        then ((mainResultsListOf meta_data).length : Int)
        else pyIntOr0 (pyGet meta_data "num_main_results" "NA"))
      = ((mainResultsListOf meta_data).length : Int)
  split
  · rfl
  · next h => rwa [not_ne_iff] at h

/-- Zero reconciled count takes the synthetic-row branch. -/
theorem processStudy_zero (filename : String) (user_items : List String)
    (metaResp userResp : Option String) (detailResp : Nat → Option String)
    (h : reconciledCount (extract_meta_info metaResp) = 0) :
    processStudy filename user_items metaResp userResp detailResp =
      [build_row filename (extract_meta_info metaResp) 0 "NA" naDetailDict
        (userDataOf user_items userResp)] := by
  unfold processStudy
  rw [if_pos h]

/-- Nonzero reconciled count takes the per-result branch: one pass-2 call
and one row per candidate part, in split order, 1-based. -/
theorem processStudy_pos (filename : String) (user_items : List String)
    (metaResp userResp : Option String) (detailResp : Nat → Option String)
    (h : reconciledCount (extract_meta_info metaResp) ≠ 0) :
    processStudy filename user_items metaResp userResp detailResp =
      (mainResultsListOf (extract_meta_info metaResp)).enum.map (fun je =>
        build_row filename (extract_meta_info metaResp) ((je.1 : Int) + 1) je.2
          (extract_result_details (detailResp (je.1 + 1)))
          (userDataOf user_items userResp)) := by
  unfold processStudy
  rw [if_neg h]

/-- The number of output rows is `max 1 (semicolon-derived count)`. -/
theorem processStudy_length (filename : String) (user_items : List String)
    (metaResp userResp : Option String) (detailResp : Nat → Option String) :
    (processStudy filename user_items metaResp userResp detailResp).length =
      max 1 (mainResultsListOf (extract_meta_info metaResp)).length := by
  by_cases h : reconciledCount (extract_meta_info metaResp) = 0
  · rw [processStudy_zero filename user_items metaResp userResp detailResp h]
    have hlen : (mainResultsListOf (extract_meta_info metaResp)).length = 0 := by
      have := reconciledCount_eq_length (extract_meta_info metaResp)
      omega
    rw [hlen]
    simp
  · rw [processStudy_pos filename user_items metaResp userResp detailResp h]
    rw [List.length_map, List.enum_length]
    have hlen : (mainResultsListOf (extract_meta_info metaResp)).length ≠ 0 := by
      have := reconciledCount_eq_length (extract_meta_info metaResp)
      omega
    omega

/-- Reading the `num_main_results` cell of a built row gives the meta
dict's value, untouched. -/
theorem build_row_num_main_results (pdf_file : String)
    (meta_data : List (String × String)) (result_index : Int)
    (result_text : String) (detail_data user_data : List (String × String))
    (dflt : String) :
    pyGet (build_row pdf_file meta_data result_index result_text detail_data user_data)
        "num_main_results" dflt =
      pyGet meta_data "num_main_results" "0" := rfl

/-- The meta dict's `num_main_results` entry is the raw parse of field 7
(or `"0"` on call failure). -/
theorem extract_meta_info_field7 (metaResp : Option String) :
    pyGet (extract_meta_info metaResp) "num_main_results" "0" =
      metaField7Raw metaResp := by
  cases metaResp with
  | none => rfl
  | some content => rfl

theorem cosine_similarity_left_empty (sq : ℚ → ℚ) (v : List ℚ) :
    cosine_similarity sq [] v = 0 := by
  unfold cosine_similarity
  rw [if_pos (Or.inl rfl)]

theorem argmaxIdx_zero_of_all_zero (l : List ℚ) (h : ∀ x ∈ l, x = 0) :
    argmaxIdx l = 0 := by
  cases l with
  | nil => rfl
  | cons a rest =>
    unfold argmaxIdx
    rw [if_pos]
    rw [List.all_eq_true]
    intro b hb
    rw [decide_eq_true_eq, h b (List.mem_cons_of_mem a hb), h a (List.mem_cons_self a rest)]

/-- When the embedding call for the query fails, the degraded empty query
vector makes every similarity `0.0` and the argmax picks the first
ontology row. -/
theorem find_best_match_embedding_failure (sq : ℚ → ℚ)
    (emb : String → Option (List ℚ)) (item_text : String)
    (onto_df : List OntoRow) (hne : onto_df ≠ [])
    (hfail : emb item_text = none) :
    find_best_match_in_ontology sq emb item_text onto_df =
      (onto_df.getD 0 ⟨"NA", []⟩).term := by
  unfold find_best_match_in_ontology
  rw [if_neg (by simpa using hne)]
  have hemb : compute_embedding emb item_text = [] := by
    unfold compute_embedding
    rw [hfail]
    rfl
  have hsims : argmaxIdx (onto_df.map
      (fun row => cosine_similarity sq (compute_embedding emb item_text) row.embedding)) = 0 := by
    apply argmaxIdx_zero_of_all_zero
    intro x hx
    rw [List.mem_map] at hx
    obtain ⟨row, _, hrow⟩ := hx
    rw [← hrow, hemb, cosine_similarity_left_empty]
  show (onto_df.getD (argmaxIdx (onto_df.map
      (fun row => cosine_similarity sq (compute_embedding emb item_text) row.embedding)))
      ⟨"NA", []⟩).term = _
  rw [hsims]

/-! ### Claims -/

/-- C7: for every response text and every expected count `N ≥ 1`, the
enumerated-answer parsing loop returns exactly `N` values, each either the
sentinel `"NA"` or a non-empty string with no surrounding whitespace; it
is a total function (never raises); a text containing no matching numeric
label at all yields `N` `"NA"` values; and the user-items dict built from
it likewise always has exactly `N` entries. -/
theorem c7_parser_totality (content : String) (n : Nat) (_hn : 1 ≤ n) :
    (parseItems content.data n).length = n ∧
    (∀ v ∈ parseItems content.data n,
      v = naChars ∨ (v ≠ [] ∧ strippedB v = true)) ∧
    ((List.range n).all (fun j => !hasLabel content.data (j + 1)) = true →
      ∀ v ∈ parseItems content.data n, v = naChars) ∧
    (parse_user_items_response content n).length = n := by
  refine ⟨parseItems_length content.data n, ?_, ?_, ?_⟩
  · intro v hv
    unfold parseItems at hv
    rw [List.mem_map] at hv
    obtain ⟨j, _, hj⟩ := hv
    rw [← hj]
    exact parseItemVal_na_or_stripped content.data (j + 1) n
  · intro hall v hv
    unfold parseItems at hv
    rw [List.mem_map] at hv
    obtain ⟨j, hjmem, hj⟩ := hv
    rw [← hj]
    apply parseItemVal_eq_na_of_no_label
    rw [List.all_eq_true] at hall
    have := hall j hjmem
    rwa [Bool.not_eq_true'] at this
  · unfold parse_user_items_response
    rw [List.length_map, List.length_range]

/-- C7 witness at a concrete input: a text with no labels, `N = 2`. -/
theorem c7_parser_totality_witness :
    (parseItems "hello world".data 2).length = 2 ∧
    (parseItems "hello world".data 2).getD 0 [] = naChars ∧
    (parse_user_items_response "hello world" 2).length = 2 := by
  have h := c7_parser_totality "hello world" 2 (by decide)
  exact ⟨h.1, h.2.2.1 (by decide) _ (by decide), h.2.2.2⟩

/-- C8: label matching is boundary-aware: the documented example
`"1: foo bar\n2: baz"` with `N = 2` parses to `["foo bar", "baz"]`; a
label occurrence directly preceded by a digit never matches (so `"1:"`
cannot match inside a longer number); and on `"10: qux"` with `N = 10`,
item 1 is `"NA"` while item 10 is `"qux"`. -/
theorem c8_boundary_matching :
    parseItems "1: foo bar\n2: baz".data 2 = ["foo bar".data, "baz".data] ∧
    (∀ (s : List Char) (i q : Nat) (c : Char), s.get? q = some c →
      c.isDigit = true → labelAt s i (q + 1) = false) ∧
    (parseItems "10: qux".data 10).getD 0 [] = naChars ∧
    (parseItems "10: qux".data 10).getD 9 [] = "qux".data := by
  refine ⟨by decide, ?_, by decide, by decide⟩
  intro s i q c hget hdig
  have hw : wordCharAt s q = true := by
    unfold wordCharAt
    rw [hget]
    unfold isWordChar
    simp [Char.isAlphanum, hdig]
  unfold labelAt
  rw [Nat.add_sub_cancel, hw]
  simp

/-- C8 witness: in `"21: x"` the text `"1:"` occurs at position 1 but is
preceded by the digit `'2'`, so the label-1 pattern does not match there. -/
theorem c8_boundary_matching_witness : labelAt "21: x".data 1 1 = false :=
  c8_boundary_matching.2.1 "21: x".data 1 0 '2' rfl rfl

/-- C6: a study whose reconciled result count is 0 produces exactly the
single synthetic row (`main_result_index` 0, `main_result_text` `"NA"`,
all seven detail fields `"NA"`), and the detail extractor is never
consulted (the output is identical under any two detail-call oracles). -/
theorem c6_zero_result_row (filename : String) (user_items : List String)
    (metaResp userResp : Option String)
    (detailResp detailResp' : Nat → Option String)
    (h : reconciledCount (extract_meta_info metaResp) = 0) :
    processStudy filename user_items metaResp userResp detailResp =
      [build_row filename (extract_meta_info metaResp) 0 "NA" naDetailDict
        (userDataOf user_items userResp)] ∧
    processStudy filename user_items metaResp userResp detailResp =
      processStudy filename user_items metaResp userResp detailResp' ∧
    ∀ row ∈ processStudy filename user_items metaResp userResp detailResp,
      pyGet row "main_result_index" "" = "0" ∧
      pyGet row "main_result_text" "" = "NA" ∧
      pyGet row "effect_size_type" "" = "NA" ∧
      pyGet row "effect_size" "" = "NA" ∧
      pyGet row "effect_size_uncertainty" "" = "NA" ∧
      pyGet row "p_value" "" = "NA" ∧
      pyGet row "total_sample_size" "" = "NA" ∧
      pyGet row "intervention_or_predictor_variable" "" = "NA" ∧
      pyGet row "outcome_variable" "" = "NA" := by
  refine ⟨processStudy_zero _ _ _ _ _ h, ?_, ?_⟩
  · rw [processStudy_zero filename user_items metaResp userResp detailResp h,
      processStudy_zero filename user_items metaResp userResp detailResp' h]
  · intro row hrow
    rw [processStudy_zero filename user_items metaResp userResp detailResp h,
      List.mem_singleton] at hrow
    subst hrow
    exact ⟨rfl, rfl, rfl, rfl, rfl, rfl, rfl, rfl, rfl⟩

/-- C6 witness: a failed meta call reconciles to 0 results; the single
synthetic row appears and two different detail oracles give the same
output. -/
theorem c6_zero_result_row_witness :
    (processStudy "study.pdf" ["q"] none none (fun _ => none)).length = 1 ∧
    processStudy "study.pdf" ["q"] none none (fun _ => none) =
      processStudy "study.pdf" ["q"] none none (fun _ => some "1: z") ∧
    pyGet ((processStudy "study.pdf" ["q"] none none (fun _ => none)).getD 0 [])
      "main_result_index" "" = "0" := by
  have h := c6_zero_result_row "study.pdf" ["q"] none none (fun _ => none)
    (fun _ => some "1: z") (by decide)
  refine ⟨?_, h.2.1, (h.2.2 _ (by decide)).1⟩
  rw [h.1]
  rfl

/-- The pipeline's candidate list agrees with the spec's split-trim-drop
formula, except that a falsy or `"NA"` raw string short-circuits to the
empty list. -/
theorem mainResultsListOf_eq_spec (meta_data : List (String × String)) :
    mainResultsListOf meta_data =
      if pyGet meta_data "main_results_list" "NA" = "" ∨
         pyGet meta_data "main_results_list" "NA" = "NA" then []
      else specSplitParts (pyGet meta_data "main_results_list" "NA") := by
  unfold mainResultsListOf specSplitParts
  by_cases h : pyGet meta_data "main_results_list" "NA" = "" ∨
      pyGet meta_data "main_results_list" "NA" = "NA"
  · rw [if_pos h, if_neg (by tauto)]
  · rw [if_neg h, if_pos (by tauto)]

/-- C5 counterexample: a study whose raw-results-text parses to exactly
`"NA"` reconciles to 0 results, while splitting the string `"NA"` on
`";"` leaves one non-empty part — so the reconciled count is not always
the semicolon-split length of the raw text. -/
theorem c5_counterexample :
    pyGet (extract_meta_info
        (some "1: t\n2: a\n3: b\n4: c\n5: d\n6: e\n7: 1\n8: NA"))
      "main_results_list" "NA" = "NA" ∧
    (specSplitParts "NA").length = 1 ∧
    reconciledCount (extract_meta_info
        (some "1: t\n2: a\n3: b\n4: c\n5: d\n6: e\n7: 1\n8: NA")) ≠
      ((specSplitParts (pyGet (extract_meta_info
          (some "1: t\n2: a\n3: b\n4: c\n5: d\n6: e\n7: 1\n8: NA"))
        "main_results_list" "NA")).length : Int) := by decide

/-- C5 (amended): the reconciled count is the number of non-empty trimmed
parts of splitting raw-results-text on `";"` — except that a raw text that
is empty or exactly `"NA"` yields count 0 — regardless of the reported
count; and whenever the count is nonzero the detail extractor is called
once per candidate part, strictly in split order with 1-based indices. -/
theorem c5_reconciliation (filename : String) (user_items : List String)
    (metaResp userResp : Option String) (detailResp : Nat → Option String) :
    (reconciledCount (extract_meta_info metaResp) =
      if pyGet (extract_meta_info metaResp) "main_results_list" "NA" = "" ∨
         pyGet (extract_meta_info metaResp) "main_results_list" "NA" = "NA"
      then 0
      else ((specSplitParts (pyGet (extract_meta_info metaResp)
            "main_results_list" "NA")).length : Int)) ∧
    (reconciledCount (extract_meta_info metaResp) ≠ 0 →
      processStudy filename user_items metaResp userResp detailResp =
        (mainResultsListOf (extract_meta_info metaResp)).enum.map (fun je =>
          build_row filename (extract_meta_info metaResp) ((je.1 : Int) + 1) je.2
            (extract_result_details (detailResp (je.1 + 1)))
            (userDataOf user_items userResp))) := by
  constructor
  · rw [reconciledCount_eq_length, mainResultsListOf_eq_spec]
    by_cases h : pyGet (extract_meta_info metaResp) "main_results_list" "NA" = "" ∨
        pyGet (extract_meta_info metaResp) "main_results_list" "NA" = "NA"
    · rw [if_pos h, if_pos h]
      rfl
    · rw [if_neg h, if_neg h]
  · exact processStudy_pos filename user_items metaResp userResp detailResp

/-- C5 witness: the spec's own example — raw text `"A; B; C"` with
reported count 5 reconciles to 3 rows, one detail call per part in
order. -/
theorem c5_reconciliation_witness :
    reconciledCount (extract_meta_info
        (some "1: t\n2: a\n3: b\n4: c\n5: d\n6: e\n7: 5\n8: A; B; C")) = 3 ∧
    processStudy "s.pdf" []
        (some "1: t\n2: a\n3: b\n4: c\n5: d\n6: e\n7: 5\n8: A; B; C")
        none (fun _ => none) =
      (mainResultsListOf (extract_meta_info
          (some "1: t\n2: a\n3: b\n4: c\n5: d\n6: e\n7: 5\n8: A; B; C"))).enum.map
        (fun je =>
          build_row "s.pdf"
            (extract_meta_info
              (some "1: t\n2: a\n3: b\n4: c\n5: d\n6: e\n7: 5\n8: A; B; C"))
            ((je.1 : Int) + 1) je.2
            (extract_result_details ((fun _ => none) (je.1 + 1)))
            (userDataOf [] none)) := by
  have h := c5_reconciliation "s.pdf" []
    (some "1: t\n2: a\n3: b\n4: c\n5: d\n6: e\n7: 5\n8: A; B; C")
    none (fun _ => none)
  refine ⟨?_, h.2 (by decide)⟩
  rw [h.1]
  decide

/-- C10: every output row's `num_main_results` cell is exactly the raw
string parsed for meta field 7 (`"0"` when the meta call failed), left
untouched by reconciliation, while the number of rows a study contributes
is `max 1 (semicolon-derived count)` — so the cell can disagree with the
row count. -/
theorem c10_num_main_results_cell (filename : String) (user_items : List String)
    (metaResp userResp : Option String) (detailResp : Nat → Option String) :
    (∀ row ∈ processStudy filename user_items metaResp userResp detailResp,
      pyGet row "num_main_results" "" = metaField7Raw metaResp) ∧
    (processStudy filename user_items metaResp userResp detailResp).length =
      max 1 (mainResultsListOf (extract_meta_info metaResp)).length := by
  refine ⟨?_, processStudy_length filename user_items metaResp userResp detailResp⟩
  intro row hrow
  by_cases h : reconciledCount (extract_meta_info metaResp) = 0
  · rw [processStudy_zero filename user_items metaResp userResp detailResp h,
      List.mem_singleton] at hrow
    subst hrow
    rw [build_row_num_main_results, extract_meta_info_field7]
  · rw [processStudy_pos filename user_items metaResp userResp detailResp h,
      List.mem_map] at hrow
    obtain ⟨je, _, hje⟩ := hrow
    rw [← hje, build_row_num_main_results, extract_meta_info_field7]

/-- C10 witness: a meta response whose field 7 is the non-numeric string
`"NA"` while field 8 splits into two parts: the cell keeps `"NA"` and the
study still contributes two rows. -/
theorem c10_num_main_results_cell_witness :
    pyGet ((processStudy "s.pdf" []
        (some "1: t\n2: a\n3: b\n4: c\n5: d\n6: e\n7: NA\n8: A; B")
        none (fun _ => none)).getD 0 []) "num_main_results" "" = "NA" ∧
    (processStudy "s.pdf" []
        (some "1: t\n2: a\n3: b\n4: c\n5: d\n6: e\n7: NA\n8: A; B")
        none (fun _ => none)).length = 2 := by
  have h := c10_num_main_results_cell "s.pdf" []
    (some "1: t\n2: a\n3: b\n4: c\n5: d\n6: e\n7: NA\n8: A; B")
    none (fun _ => none)
  constructor
  · have h1 := h.1 ((processStudy "s.pdf" []
        (some "1: t\n2: a\n3: b\n4: c\n5: d\n6: e\n7: NA\n8: A; B")
        none (fun _ => none)).getD 0 []) (by decide)
    rw [h1]
    decide
  · rw [h.2]
    decide

/-- C3 counterexample: with a non-empty ontology, a failed embedding call
for the looked-up value returns the first ontology term, not `"NA"`. -/
theorem c3_counterexample :
    find_best_match_in_ontology (fun q => q) (fun _ => none)
      "parenting education" [⟨"alpha", [1]⟩, ⟨"beta", [2]⟩] = "alpha" ∧
    find_best_match_in_ontology (fun q => q) (fun _ => none)
      "parenting education" [⟨"alpha", [1]⟩, ⟨"beta", [2]⟩] ≠ "NA" := by decide

/-- C3 (amended): when the embedding call for a value fails, that single
lookup returns the *first* ontology term (the degraded empty query vector
makes every similarity `0.0`, and `np.argmax` picks index 0); the rest of
the batch is unaffected — the mapped table still has one output row per
input row. -/
theorem c3_embedding_failure_lookup (sq : ℚ → ℚ)
    (emb : String → Option (List ℚ)) (item_text : String)
    (onto_df : List OntoRow) (hne : onto_df ≠ [])
    (hfail : emb item_text = none) :
    find_best_match_in_ontology sq emb item_text onto_df =
      (onto_df.getD 0 ⟨"NA", []⟩).term ∧
    ∀ (it ot : List String) (df : List (List (String × String))),
      (map_interventions_and_outcomes sq emb it ot df).length = df.length := by
  refine ⟨find_best_match_embedding_failure sq emb item_text onto_df hne hfail, ?_⟩
  intro it ot df
  unfold map_interventions_and_outcomes
  rw [List.length_map]

/-- C3 witness at a concrete failing embedding call and one-term
ontology. -/
theorem c3_embedding_failure_lookup_witness :
    find_best_match_in_ontology (fun q => q) (fun _ => none) "wellbeing"
      [⟨"gamma", [1]⟩] = "gamma" ∧
    (map_interventions_and_outcomes (fun q => q) (fun _ => none) ["gamma"] []
      [[("4", "x")], [("4", "y")]]).length = 2 := by
  have h := c3_embedding_failure_lookup (fun q => q) (fun _ => none) "wellbeing"
    [⟨"gamma", [1]⟩] (by decide) rfl
  refine ⟨?_, h.2 ["gamma"] [] [[("4", "x")], [("4", "y")]]⟩
  rw [h.1]
  decide

theorem all_isStr_map_str (l : List String) :
    (l.map Jsn.str).all jsnIsStr = true := by
  induction l with
  | nil => rfl
  | cons a t ih =>
    rw [List.map_cons, List.all_cons]
    exact ih

theorem jsnStrs_map_str (l : List String) : jsnStrs (l.map Jsn.str) = l := by
  induction l with
  | nil => rfl
  | cons a t ih =>
    unfold jsnStrs at ih ⊢
    rw [List.map_cons, List.filterMap_cons]
    show a :: (t.map Jsn.str).filterMap _ = a :: t
    rw [ih]

theorem jsnTermValues_map_record (l : List String) :
    jsnTermValues (l.map (fun t => Jsn.obj [("term", Jsn.str t)])) = l := by
  induction l with
  | nil => rfl
  | cons a t ih =>
    unfold jsnTermValues at ih ⊢
    rw [List.map_cons, List.filterMap_cons]
    show a :: (t.map _).filterMap _ = a :: t
    rw [ih]

/-- A JSON array of strings loads as those strings. -/
theorem loadShape_flat_strings (ts : List String) :
    loadOntologyJsonShape (Jsn.arr (ts.map Jsn.str)) = ts := by
  cases ts with
  | nil => rfl
  | cons t rest =>
    unfold loadOntologyJsonShape
    rw [List.map_cons]
    show (if (Jsn.str t :: rest.map Jsn.str).length > 0 then _ else []) = t :: rest
    rw [if_pos (by simp)]
    show (if (Jsn.str t :: rest.map Jsn.str).all jsnIsStr
          then jsnStrs (Jsn.str t :: rest.map Jsn.str) else []) = t :: rest
    rw [← List.map_cons, if_pos (all_isStr_map_str (t :: rest)), jsnStrs_map_str]

/-- A JSON array of `{"term": ...}` records loads as the term values. -/
theorem loadShape_term_records (ts : List String) :
    loadOntologyJsonShape
      (Jsn.arr (ts.map (fun t => Jsn.obj [("term", Jsn.str t)]))) = ts := by
  cases ts with
  | nil => rfl
  | cons t rest =>
    unfold loadOntologyJsonShape
    rw [List.map_cons]
    show (if (Jsn.obj [("term", Jsn.str t)] ::
            rest.map (fun t => Jsn.obj [("term", Jsn.str t)])).length > 0
          then _ else []) = t :: rest
    rw [if_pos (by simp)]
    show (if (objGet [("term", Jsn.str t)] "term").isSome
          then jsnTermValues (Jsn.obj [("term", Jsn.str t)] ::
            rest.map (fun t => Jsn.obj [("term", Jsn.str t)]))
          else _) = t :: rest
    have hterm : (objGet [("term", Jsn.str t)] "term").isSome = true := rfl
    rw [if_pos hterm]
    show jsnTermValues ((t :: rest).map (fun t => Jsn.obj [("term", Jsn.str t)])) = t :: rest
    rw [jsnTermValues_map_record]

/-- C9 counterexample: an ontology file whose JSON fails to parse (or
whose CSV read fails) propagates the exception — `load_ontology` does not
degrade it to an empty term set. -/
theorem c9_counterexample :
    load_ontology (OntologySource.jsonFile none) = Except.error () ∧
    load_ontology (OntologySource.jsonFile none) ≠ Except.ok [] ∧
    load_ontology (OntologySource.csvFile none) = Except.error () := by
  refine ⟨rfl, ?_, rfl⟩
  intro h
  exact Except.noConfusion h

/-- C9 (amended): on successfully *parsed* input, ontology loading
accepts a flat list of strings or a list of `{"term": ...}` records, an
unsupported extension or any other well-formed JSON shape yields the
empty term set, and the matcher on an empty term set always returns
`"NA"` — but an unreadable file or a parse failure raises to the caller
instead of yielding an empty set. -/
theorem c9_ontology_loading :
    (∀ ts : List String,
      load_ontology (OntologySource.jsonFile (some (Jsn.arr (ts.map Jsn.str)))) =
        Except.ok ts) ∧
    (∀ ts : List String,
      load_ontology (OntologySource.jsonFile
        (some (Jsn.arr (ts.map (fun t => Jsn.obj [("term", Jsn.str t)]))))) =
        Except.ok ts) ∧
    (∀ data : Jsn, (∀ items, data ≠ Jsn.arr items) →
      load_ontology (OntologySource.jsonFile (some data)) = Except.ok []) ∧
    load_ontology OntologySource.otherExt = Except.ok [] ∧
    (∀ (sq : ℚ → ℚ) (emb : String → Option (List ℚ)) (t : String),
      find_best_match_in_ontology sq emb t
        (create_ontology_embeddings emb []) = "NA") ∧
    load_ontology (OntologySource.jsonFile none) = Except.error () := by
  refine ⟨?_, ?_, ?_, rfl, fun sq emb t => rfl, rfl⟩
  · intro ts
    show Except.ok (loadOntologyJsonShape (Jsn.arr (ts.map Jsn.str))) = _
    rw [loadShape_flat_strings]
  · intro ts
    show Except.ok (loadOntologyJsonShape
      (Jsn.arr (ts.map (fun t => Jsn.obj [("term", Jsn.str t)])))) = _
    rw [loadShape_term_records]
  · intro data h
    cases data with
    | arr items => exact absurd rfl (h items)
    | str s => rfl
    | num q => rfl
    | bool b => rfl
    | null => rfl
    | obj fields => rfl

/-- C9 witness at concrete inputs for each accepted and degraded shape. -/
theorem c9_ontology_loading_witness :
    load_ontology (OntologySource.jsonFile
      (some (Jsn.arr [Jsn.str "a", Jsn.str "b"]))) = Except.ok ["a", "b"] ∧
    load_ontology (OntologySource.jsonFile
      (some (Jsn.arr [Jsn.obj [("term", Jsn.str "t1")]]))) = Except.ok ["t1"] ∧
    load_ontology (OntologySource.jsonFile (some (Jsn.obj []))) = Except.ok [] ∧
    find_best_match_in_ontology (fun q => q) (fun _ => some [1]) "x"
      (create_ontology_embeddings (fun _ => some [1]) []) = "NA" := by
  have h := c9_ontology_loading
  exact ⟨h.1 ["a", "b"], h.2.1 ["t1"],
    h.2.2.1 (Jsn.obj []) (fun items hc => Jsn.noConfusion hc),
    h.2.2.2.2.1 (fun q => q) (fun _ => some [1]) "x"⟩

/-- C1 (code bug): the meta and detail extractors' failure fallbacks do
keep the key set of a successful record, but the user-items extractor's
fallback is keyed `extra_1 .. extra_k` while its successful record is
keyed `extra_0 .. extra_{k-1}` — and the fallback row is then rejected by
the CSV writer, whose fieldnames only contain `extra_0 ..`. -/
theorem c1_user_items_fallback_shape :
    (extract_user_items none ["duration"]).map Prod.fst = ["extra_1"] ∧
    (extract_user_items (some "1: two weeks") ["duration"]).map Prod.fst =
      ["extra_0"] ∧
    writerowOk (csvFieldnames ["duration"])
      (build_row "a.pdf" (extract_meta_info none) 0 "NA" naDetailDict
        (extract_user_items none ["duration"])) = false ∧
    (extract_meta_info none).map Prod.fst =
      (parse_meta_extraction "1: x").map Prod.fst ∧
    (extract_result_details none).map Prod.fst =
      (parse_detail_extraction "1: x").map Prod.fst := by decide

/-- C2 (code bug): with two user labels, the parsed answers to items 1
and 2 land under `extra_1` and `extra_0` respectively — the comprehension
`{f"extra_{i}": results[i - 1] ...}` pairs `extra_0` with the *last*
answer instead of the first; the zero-label case does return the empty
field set. -/
theorem c2_user_items_keying :
    parse_user_items_response "1: alpha\n2: beta" 2 =
      [("extra_0", "beta"), ("extra_1", "alpha")] ∧
    parse_user_items_response "1: alpha\n2: beta" 2 ≠
      [("extra_0", "alpha"), ("extra_1", "beta")] ∧
    extract_user_items (some "1: alpha\n2: beta") [] = [] := by decide

/-- C4 (code bug): the mapper looks up the hard-coded columns `"4"` and
`"7"`, which the extraction table does not have, so both mapped columns
are `"NA"` on a genuine pipeline row even though its
`intervention_or_predictor_variable` cell holds matchable text — a direct
lookup of that text against the one-term ontology returns `"alpha"`. -/
theorem c4_hardcoded_columns :
    map_interventions_and_outcomes (fun q => q) (fun _ => some [1])
        ["alpha"] ["beta"]
        [build_row "a.pdf"
          (extract_meta_info
            (some "1: T\n2: P\n3: Q\n4: S\n5: USA\n6: g\n7: 1\n8: R1"))
          1 "R1"
          (extract_result_details
            (some "1: OR\n2: 2\n3: CI\n4: 0.03\n5: 250\n6: parenting education\n7: child wellbeing"))
          []] =
      [build_row "a.pdf"
          (extract_meta_info
            (some "1: T\n2: P\n3: Q\n4: S\n5: USA\n6: g\n7: 1\n8: R1"))
          1 "R1"
          (extract_result_details
            (some "1: OR\n2: 2\n3: CI\n4: 0.03\n5: 250\n6: parenting education\n7: child wellbeing"))
          [] ++ [("mapped_intervention", "NA"), ("mapped_outcome", "NA")]] ∧
    pyGet (build_row "a.pdf"
        (extract_meta_info
          (some "1: T\n2: P\n3: Q\n4: S\n5: USA\n6: g\n7: 1\n8: R1"))
        1 "R1"
        (extract_result_details
          (some "1: OR\n2: 2\n3: CI\n4: 0.03\n5: 250\n6: parenting education\n7: child wellbeing"))
        []) "intervention_or_predictor_variable" "" = "parenting education" ∧
    find_best_match_in_ontology (fun q => q) (fun _ => some [1])
      "parenting education"
      (create_ontology_embeddings (fun _ => some [1]) ["alpha"]) = "alpha" := by
  decide
